import Mathlib

/-!
Verification development for the `webdoc_downloader` repository
(`src/webdoc_downloader/{downloader,models,utils,exceptions}.py`).

The Python code is shallowly embedded as executable Lean definitions:

* Pure helpers (`sanitize_filename`, `_is_downloadable_link`,
  `_is_valid_file_size`, filename derivation) become Lean functions.
* Library calls are modelled as follows. `urllib.parse.urlparse(...).path`
  is modelled by `urlparse_path` (fragment/scheme/netloc/query/params
  splitting of CPython's `urlsplit`/`urlparse`, including removal of the
  unsafe bytes tab/CR/LF; the very recent stripping of leading/trailing C0
  control characters is not modelled, nor are non-ASCII case mappings and
  non-ASCII decimal digits). `pathlib.Path(...).name` is modelled by
  `pathName`. `urljoin` and BeautifulSoup anchor extraction are external
  library calls and enter the model as explicit function parameters
  (`Env.urljoin`, `Env.soup_hrefs`: the list of `href` attribute values of
  the page's anchors in document order).
* Effects (network, filesystem, clock) are modelled by an explicit `World`:
  a per-URL sequence of attempt outcomes for `session.get`, an optional
  `mkdir` error, and a per-filename optional save error (an `OSError`
  raised when opening/writing the destination; partial writes are not
  modelled). The output directory's contents are a list of filenames;
  the Python existence test `(output_dir / filename).exists()` is modelled
  as membership in that list, plus the two special names `""` (which
  Python resolves to the output directory itself, which exists at that
  point) and `".."` (the parent directory, which also exists).
* `requests.Response.raise_for_status` raises `HTTPError` exactly for
  status codes in `[400, 600)`; any other status (including every 2xx) is
  returned to the caller. Exceptions are modelled by their `str(...)` text.
-/

/-! ## Model of `urllib.parse.urlparse(href).path` -/

/-- Characters allowed after the first character of a URL scheme
(CPython `scheme_chars`). -/
def schemeChars (c : Char) : Bool :=
  c.isAlpha || c.isDigit || c == '+' || c == '-' || c == '.'

/-- Split a character list at the first occurrence of `sep`; `none` when
`sep` does not occur. -/
def splitFirst (sep : Char) : List Char → Option (List Char × List Char)
  | [] => none
  | c :: rest =>
    if c = sep then some ([], rest)
    else (splitFirst sep rest).map (fun p => (c :: p.1, p.2))

/-- CPython `urlsplit` removes the unsafe bytes tab, CR and LF from the URL
before parsing. -/
def stripControlBytes (l : List Char) : List Char :=
  l.filter (fun c => c ≠ '\t' && c ≠ '\r' && c ≠ '\n')

/-- Scheme splitting of CPython `urlsplit`: a scheme is recognised when the
first `':'` occurs at index `> 0`, the first character is an ASCII letter
and every further character before the colon is a scheme character; the
scheme is lower-cased. Returns `(scheme, rest)`. -/
def splitScheme (l : List Char) : List Char × List Char :=
  match splitFirst ':' l with
  | none => ([], l)
  | some (pre, rest) =>
    match pre with
    | [] => ([], l)
    | c0 :: pc =>
      if c0.isAlpha && pc.all schemeChars then
        ((c0 :: pc).map Char.toLower, rest)
      else ([], l)

/-- Netloc splitting of CPython `urlsplit`: after `"//"`, the netloc runs
until the next `'/'`, `'?'` or `'#'`. Returns `(netloc, rest)`. -/
def splitNetloc (l : List Char) : List Char × List Char :=
  match l with
  | '/' :: '/' :: rest =>
    let netloc := rest.takeWhile (fun c => c ≠ '/' && c ≠ '?' && c ≠ '#')
    (netloc, rest.drop netloc.length)
  | _ => ([], l)

/-- Drop everything from the first `';'` on (CPython `_splitparams`, the
no-slash branch). -/
def dropParamsSeg (seg : List Char) : List Char :=
  match splitFirst ';' seg with
  | none => seg
  | some (a, _) => a

/-- CPython `_splitparams`: when the path holds a `'/'`, only a `';'` in
the segment after the last `'/'` starts the params; otherwise the first
`';'` does. -/
def pySplitParams (path : List Char) : List Char :=
  if path.contains '/' then
    let rev := path.reverse
    let tailRev := rev.takeWhile (fun c => c ≠ '/')
    let segTail := tailRev.reverse
    let headPart := (rev.drop tailRev.length).reverse
    if segTail.contains ';' then headPart ++ dropParamsSeg segTail else path
  else dropParamsSeg path

/-- Schemes for which CPython `urlparse` splits `;params` off the path. -/
def usesParams : List String :=
  ["", "ftp", "hdl", "prospero", "http", "imap", "https", "shttp", "rtsp",
   "rtspu", "sip", "sips", "mms", "sftp", "tel"]

/-- Model of `urllib.parse.urlparse(url).path`: remove unsafe bytes, split
scheme, netloc, fragment, query, and (for param-using schemes) params;
what remains is the path component. -/
def urlparse_path (url : String) : String :=
  let l := stripControlBytes url.toList
  let (scheme, l) := splitScheme l
  let (_, l) := splitNetloc l
  let l := match splitFirst '#' l with
    | some (a, _) => a
    | none => l
  let l := match splitFirst '?' l with
    | some (a, _) => a
    | none => l
  let l :=
    if (String.mk scheme) ∈ usesParams && l.contains ';' then pySplitParams l
    else l
  String.mk l

/-! Structurally recursive models of the Python string primitives the
code relies on (`str.startswith`, `str.endswith`, `str.lower`,
`str.strip`, splitting on a separator), kept kernel-computable. -/

/-- Python `s.startswith(t)`. -/
def strStartsWith (s t : String) : Bool :=
  List.isPrefixOf t.data s.data

/-- Python `s.endswith(t)`. -/
def strEndsWith (s t : String) : Bool :=
  List.isPrefixOf t.data.reverse s.data.reverse

/-- Python `s.lower()` (ASCII case mapping). -/
def pyLower (s : String) : String :=
  String.mk (s.data.map Char.toLower)

/-- Python `s.strip()` (ASCII whitespace). -/
def pyStrip (s : String) : List Char :=
  (((s.data.dropWhile Char.isWhitespace).reverse.dropWhile Char.isWhitespace).reverse)

/-- Split a character list on a separator character, keeping empty
segments, like Python `s.split(sep)`. -/
def splitOnChar (sep : Char) : List Char → List (List Char)
  | [] => [[]]
  | c :: rest =>
    let r := splitOnChar sep rest
    if c = sep then [] :: r
    else
      match r with
      | [] => [[c]]
      | h :: t => (c :: h) :: t

/-- Model of `pathlib.PurePosixPath(p).name`: the last path component,
after dropping empty components and `"."` components; `""` when none
remain. -/
def pathName (p : String) : String :=
  String.mk
    (((splitOnChar '/' p.data).filter (fun c => c ≠ [] && c ≠ ['.'])).getLastD [])

/-! ## `utils.py` -/

/-- `utils.sanitize_filename`: the body is a TODO and returns the input
unchanged. -/
def sanitize_filename (filename : String) : String :=
  filename

/-! ## `models.py` -/

/-- `models.DownloaderConfig` with its field defaults. -/
structure DownloaderConfig where
  max_retries : Nat := 3
  timeout : Nat := 30
  min_file_size : Option Int := none
  max_file_size : Option Int := none
  allowed_extensions : List String :=
    [".pdf", ".doc", ".docx", ".xls", ".xlsx", ".ppt", ".pptx"]
  verify_ssl : Bool := true
  user_agent : String :=
    "Mozilla/5.0 (Windows NT 10.0; Win64; x64) AppleWebKit/537.36 (KHTML, like Gecko) Chrome/91.0.4472.124 Safari/537.36"
deriving Repr

/-- `models.DownloadReport`. `failed_files` is a Python dict keyed by
source URL, modelled as an insertion-ordered association list; timestamps
are abstract clock readings (`datetime.now()` values). -/
structure DownloadReport where
  success_count : Nat := 0
  failed_count : Nat := 0
  skipped_count : Nat := 0
  successful_files : List String := []
  failed_files : List (String × String) := []
  skipped_files : List String := []
  total_size : Nat := 0
  start_time : Nat
  end_time : Option Nat := none
deriving DecidableEq, Repr

/-- Python dict assignment `d[k] = v`: replace the value in place when the
key is present, append otherwise. -/
def dictSet (d : List (String × String)) (k v : String) :
    List (String × String) :=
  if d.any (fun p => p.1 = k) then
    d.map (fun p => if p.1 = k then (k, v) else p)
  else d ++ [(k, v)]

/-- Python dict lookup `d.get(k)`. -/
def dictGet (d : List (String × String)) (k : String) : Option String :=
  (d.find? (fun p => p.1 = k)).map (fun p => p.2)

/-! ## HTTP layer: responses and `_make_request` -/

/-- Model of a `requests.Response` as seen by this code: the final status
code and reason phrase, the `content-length` header value when present,
and the body as the chunks yielded by `iter_content(chunk_size=8192)`
(byte values). -/
structure HttpResponse where
  status : Nat
  reason : String
  content_length : Option String
  chunks : List (List Nat)
deriving DecidableEq, Repr

/-- `requests.Response.raise_for_status`: raises `HTTPError` (here: the
exception's `str(...)` text) exactly for status codes in `[400, 500)`
(client error) and `[500, 600)` (server error); otherwise returns. -/
def raise_for_status (url : String) (r : HttpResponse) : Option String :=
  if 400 ≤ r.status ∧ r.status < 500 then
    some (toString r.status ++ " Client Error: " ++ r.reason ++ " for url: " ++ url)
  else if 500 ≤ r.status ∧ r.status < 600 then
    some (toString r.status ++ " Server Error: " ++ r.reason ++ " for url: " ++ url)
  else none

/-- One attempt of `session.get`: either a `requests.RequestException`
(connection error, timeout, ...; modelled by its `str(...)` text) or a
response. -/
def AttemptOracle := Nat → Except String HttpResponse

/-- The error the `try` block of `_make_request` observes at attempt `i`:
the `session.get` exception, or the `HTTPError` from `raise_for_status`;
`none` when the attempt returns a response that passes the status check. -/
def attempt_error (url : String) (a : Except String HttpResponse) :
    Option String :=
  match a with
  | .error e => some e
  | .ok r => raise_for_status url r

/-- Message of the `NetworkError` raised by `_make_request`. -/
def networkErrMsg (url : String) (max_retries : Nat) (e : String) : String :=
  "Failed to fetch " ++ url ++ " after " ++ toString max_retries ++
    " attempts: " ++ e

/-- Result of `_make_request`. `ok` records the attempts consumed
(the successful attempt's 1-based index); `network_error` records the
message and the attempts consumed. `none_result` is the implicit `None`
returned when the `for` loop body never runs (`max_retries = 0`). -/
inductive ReqResult where
  | ok (resp : HttpResponse) (attempts_used : Nat)
  | network_error (msg : String) (attempts_used : Nat)
  | none_result
deriving DecidableEq, Repr

/-- The `for attempt in range(max_retries)` loop of `_make_request`,
with `i` the current attempt index and structural recursion on the
remaining iteration count (`remaining = max_retries - i` throughout). -/
def make_request_go (url : String) (att : AttemptOracle) (max_retries : Nat) :
    Nat → Nat → ReqResult
  | _, 0 => .none_result
  | i, remaining + 1 =>
    match att i with
    | .ok r =>
      match raise_for_status url r with
      | none => .ok r (i + 1)
      | some e =>
        if i = max_retries - 1 then
          .network_error (networkErrMsg url max_retries e) (i + 1)
        else make_request_go url att max_retries (i + 1) remaining
    | .error e =>
      if i = max_retries - 1 then
        .network_error (networkErrMsg url max_retries e) (i + 1)
      else make_request_go url att max_retries (i + 1) remaining

/-- `_make_request(url)`: up to `max_retries` attempts; an attempt whose
response passes `raise_for_status` is returned immediately; on the last
attempt's failure a `NetworkError` is raised. -/
def make_request (cfg : DownloaderConfig) (url : String) (att : AttemptOracle) :
    ReqResult :=
  make_request_go url att cfg.max_retries 0 cfg.max_retries

/-! ## Link filtering and collection -/

/-- `_is_downloadable_link(href)`: reject empty, fragment and
`javascript:` hrefs, then test whether the lower-cased URL path ends with
some lower-cased allowed extension. -/
def is_downloadable_link (cfg : DownloaderConfig) (href : String) : Bool :=
  if href = "" || strStartsWith href "#" || strStartsWith href "javascript:" then
    false
  else
    cfg.allowed_extensions.any
      (fun ext => strEndsWith (pyLower (urlparse_path href)) (pyLower ext))

/-- The link-collection loop of `download_from_url` (lines 64-75): append
`urljoin(url, href)` for each downloadable href, in document order, with
no deduplication. `join` stands for `urllib.parse.urljoin`. -/
def collect_file_links (cfg : DownloaderConfig)
    (join : String → String → String) (url : String) (hrefs : List String) :
    List String :=
  hrefs.foldl
    (fun acc href =>
      if is_downloadable_link cfg href then acc ++ [join url href] else acc)
    []

/-! ## Filesystem, `int()` parsing, and the per-link loop body -/

/-- An `OSError` raised by a filesystem operation, with its Python
rendering `str(e)`. -/
structure SaveError where
  errno : Nat
  strerror : String
deriving DecidableEq, Repr

/-- Python text of an `OSError` for a given path. -/
def SaveError.msg (e : SaveError) (path : String) : String :=
  "[Errno " ++ toString e.errno ++ "] " ++ e.strerror ++ ": '" ++ path ++ "'"

/-- Digit-run parser for Python `int(str)`: digits with single
underscores strictly between digits. -/
def pyDigitsGo (acc : Nat) : List Char → Option Nat
  | [] => some acc
  | '_' :: c :: rest =>
    if c.isDigit then pyDigitsGo (acc * 10 + (c.toNat - 48)) rest else none
  | c :: rest =>
    if c.isDigit then pyDigitsGo (acc * 10 + (c.toNat - 48)) rest else none

/-- Parse a nonempty digit run (underscores allowed between digits). -/
def pyDigits : List Char → Option Nat
  | [] => none
  | c :: rest =>
    if c.isDigit then pyDigitsGo (c.toNat - 48) rest else none

/-- Model of Python `int(s)` (base 10, ASCII): strip surrounding
whitespace, optional sign, then a digit run; `none` models the
`ValueError`. Non-ASCII decimal digits are not modelled. -/
def pyIntParse (s : String) : Option Int :=
  match pyStrip s with
  | '+' :: rest => (pyDigits rest).map (fun n => (n : Int))
  | '-' :: rest => (pyDigits rest).map (fun n => -(n : Int))
  | l => (pyDigits l).map (fun n => (n : Int))

/-- Text of the `ValueError` raised by `int()` on a bad literal. -/
def intErrMsg (s : String) : String :=
  "invalid literal for int() with base 10: '" ++ s ++ "'"

/-- `_save_file`: stream the body in chunks, writing only truthy
(nonempty) chunks, returning the bytes written. -/
def save_file_bytes (chunks : List (List Nat)) : Nat :=
  chunks.foldl (fun acc chunk => if chunk.isEmpty then acc else acc + chunk.length) 0

/-- `os.path`-style join of the output directory and a filename, used only
to render error messages. -/
def outPath (outDir filename : String) : String := outDir ++ "/" ++ filename

/-- `_is_valid_file_size(size)`: Python truthiness makes `None` and `0`
bounds inert. This helper is defined in the source but never called from
the download control flow. -/
def pyTruthyInt : Option Int → Bool
  | none => false
  | some v => v != 0

/-- `_is_valid_file_size` from `downloader.py` lines 157-163. -/
def is_valid_file_size (cfg : DownloaderConfig) (size : Int) : Bool :=
  if pyTruthyInt cfg.min_file_size && decide (size < cfg.min_file_size.getD 0) then
    false
  else if pyTruthyInt cfg.max_file_size && decide (size > cfg.max_file_size.getD 0) then
    false
  else true

/-- Outcome of one iteration of the per-link loop. -/
inductive LinkOutcome where
  | skip (filename : String)
  | success (filename : String) (bytes : Nat)
  | failure (msg : String)
deriving DecidableEq, Repr

/-- Step d of the loop body: open and stream the file. A save error
(`OSError` on open/write) is caught by the per-file handler. -/
def saveOutcome (save_error : String → Option SaveError)
    (outDir filename : String) (r : HttpResponse) : LinkOutcome :=
  match save_error filename with
  | some e => .failure (e.msg (outPath outDir filename))
  | none => .success filename (save_file_bytes r.chunks)

/-- Steps after a successful fetch:
`file_size = int(file_response.headers.get('content-length', 0))` --
an absent header yields `int(0) = 0`; a present header that is not a
valid integer literal raises `ValueError`, caught by the per-file
handler; the parsed value is never used afterwards -- then the save. -/
def respOutcome (save_error : String → Option SaveError)
    (outDir filename : String) (r : HttpResponse) : LinkOutcome :=
  match r.content_length with
  | some s =>
    match pyIntParse s with
    | none => .failure (intErrMsg s)
    | some _ => saveOutcome save_error outDir filename r
  | none => saveOutcome save_error outDir filename r

/-- The external effects of one run: `mkdir` outcome, per-URL attempt
oracle for `session.get`, and per-filename save outcome. -/
structure World where
  mkdir_error : Option SaveError
  attempts : String → AttemptOracle
  save_error : String → Option SaveError

/-- External library collaborators: BeautifulSoup anchor extraction
(hrefs of `soup.find_all('a', href=True)` in document order) and
`urllib.parse.urljoin`. -/
structure Env where
  soup_hrefs : HttpResponse → List String
  urljoin : String → String → String

/-- Outcome of the body of the per-link `try` (lines 82-107): derive the
filename, skip when it already exists on disk, otherwise fetch
(`NetworkError` from `_make_request`, or `AttributeError` when
`_make_request` returns `None`), read the `content-length` header, and
save. -/
def linkOutcome (cfg : DownloaderConfig) (w : World) (outDir : String)
    (fs : List String) (file_url : String) : LinkOutcome :=
  let filename := sanitize_filename (pathName (urlparse_path file_url))
  if filename = "" || filename = ".." || fs.contains filename then
    .skip filename
  else
    match make_request cfg file_url (w.attempts file_url) with
    | .network_error m _ => .failure m
    | .none_result => .failure "'NoneType' object has no attribute 'headers'"
    | .ok r _ => respOutcome w.save_error outDir filename r

/-- State threaded through the per-link loop: directory contents, the
mutable report, and a ghost trace of the URLs passed to `_make_request`. -/
structure LoopState where
  fs : List String
  report : DownloadReport
  requests : List String
deriving DecidableEq, Repr

/-- One iteration of the per-link loop (lines 81-112), updating exactly
one of the three counters. -/
def processLink (cfg : DownloaderConfig) (w : World) (outDir : String)
    (st : LoopState) (file_url : String) : LoopState :=
  match linkOutcome cfg w outDir st.fs file_url with
  | .skip fn =>
    { st with
      report := { st.report with
        skipped_files := st.report.skipped_files ++ [fn],
        skipped_count := st.report.skipped_count + 1 } }
  | .failure m =>
    { st with
      requests := st.requests ++ [file_url],
      report := { st.report with
        failed_files := dictSet st.report.failed_files file_url m,
        failed_count := st.report.failed_count + 1 } }
  | .success fn bytes =>
    { st with
      fs := st.fs ++ [fn],
      requests := st.requests ++ [file_url],
      report := { st.report with
        successful_files := st.report.successful_files ++ [fn],
        success_count := st.report.success_count + 1,
        total_size := st.report.total_size + bytes } }

/-- The whole per-link loop. -/
def processLinks (cfg : DownloaderConfig) (w : World) (outDir : String)
    (st : LoopState) (links : List String) : LoopState :=
  links.foldl (processLink cfg w outDir) st

/-! ## `download_from_url` -/

/-- How a call to `download_from_url` ends: the report is returned, or a
`DownloadError` propagates (the local report is discarded, but carried
here so its final state can be stated). -/
inductive DownloadOutcome where
  | returned (report : DownloadReport)
  | raised (msg : String) (report : DownloadReport)
deriving DecidableEq, Repr

/-- The report object of either outcome. -/
def DownloadOutcome.report : DownloadOutcome → DownloadReport
  | .returned r => r
  | .raised _ r => r

/-- Observable result of a run: the outcome, the final directory
contents, and the ghost trace of URLs passed to `_make_request`. -/
structure DownloadRun where
  outcome : DownloadOutcome
  fs : List String
  requests : List String
deriving DecidableEq, Repr

/-- Message of the `DownloadError` wrapping a cause. -/
def downloadErrMsg (url cause : String) : String :=
  "Failed to download from " ++ url ++ ": " ++ cause

/-- `download_from_url(url)` (lines 46-120): create the report, `mkdir`
the output directory, fetch and parse the page, collect candidate links,
run the per-link loop; any failure before the loop is wrapped as a
`DownloadError`; the `finally` block stamps `end_time` on every path.
`t_start` and `t_end` are the two `datetime.now()` readings. -/
def download_from_url (cfg : DownloaderConfig) (env : Env) (w : World)
    (outDir url : String) (fs0 : List String) (t_start t_end : Nat) :
    DownloadRun :=
  let report0 : DownloadReport := { start_time := t_start }
  match w.mkdir_error with
  | some e =>
    { outcome := .raised (downloadErrMsg url (e.msg outDir))
        { report0 with end_time := some t_end },
      fs := fs0, requests := [] }
  | none =>
    match make_request cfg url (w.attempts url) with
    | .network_error m _ =>
      { outcome := .raised (downloadErrMsg url m)
          { report0 with end_time := some t_end },
        fs := fs0, requests := [url] }
    | .none_result =>
      { outcome := .raised
          (downloadErrMsg url "'NoneType' object has no attribute 'content'")
          { report0 with end_time := some t_end },
        fs := fs0, requests := [url] }
    | .ok resp _ =>
      let file_links := collect_file_links cfg env.urljoin url (env.soup_hrefs resp)
      let st := processLinks cfg w outDir
        { fs := fs0, report := report0, requests := [url] } file_links
      { outcome := .returned { st.report with end_time := some t_end },
        fs := st.fs, requests := st.requests }

/-! ## Concrete fixtures used by witnesses and counterexamples -/

/-- A 304 response: a non-2xx status that `raise_for_status` accepts. -/
def resp304 : HttpResponse :=
  { status := 304, reason := "Not Modified", content_length := none, chunks := [] }

/-- A plain successful file response with a well-formed content-length. -/
def respFile : HttpResponse :=
  { status := 200, reason := "OK", content_length := some "3", chunks := [[1, 2, 3]] }

/-- A successful response whose content-length header is not an integer
literal. -/
def respBadCL : HttpResponse :=
  { status := 200, reason := "OK", content_length := some "abc", chunks := [[1, 2, 3]] }

/-- An empty loop state over an empty output directory. -/
def st0 : LoopState :=
  { fs := [], report := { start_time := 0 }, requests := [] }

/-- A loop state whose output directory already holds `b.docx`. -/
def stB : LoopState :=
  { fs := ["b.docx"], report := { start_time := 0 }, requests := [] }

/-- Page with links `a.pdf`, `b.docx`, `b.docx`; joining against the page
URL by concatenation. -/
def envC6 : Env :=
  { soup_hrefs := fun _ => ["a.pdf", "b.docx", "b.docx"],
    urljoin := fun base h => base ++ h }

/-- World where every request succeeds with `respFile` and every save
succeeds. -/
def worldOk : World :=
  { mkdir_error := none, attempts := fun _ _ => .ok respFile,
    save_error := fun _ => none }

/-- The run of claim C6: `a.pdf`, `b.docx`, `b.docx` with `b.docx`
already on disk. -/
def runC6 : DownloadRun :=
  download_from_url {} envC6 worldOk "out" "http://e.com/" ["b.docx"] 0 1

/-- World where every `session.get` raises a connection error. -/
def worldConnFail : World :=
  { mkdir_error := none, attempts := fun _ _ => .error "Connection refused",
    save_error := fun _ => none }

/-- World where creating the output directory fails. -/
def worldMkdirFail : World :=
  { mkdir_error := some { errno := 13, strerror := "Permission denied" },
    attempts := fun _ _ => .error "unreachable", save_error := fun _ => none }

/-- World whose responses carry a malformed content-length header. -/
def worldBadCL : World :=
  { mkdir_error := none, attempts := fun _ _ => .ok respBadCL,
    save_error := fun _ => none }

/-- Processing one link whose response has a malformed content-length. -/
def runC8 : LoopState :=
  processLink {} worldBadCL "out" st0 "http://e.com/a.pdf"

/-! ## Helper lemmas -/

/-- The link-collection fold is append of the filtered, joined hrefs. -/
theorem collect_file_links_go (cfg : DownloaderConfig)
    (join : String → String → String) (url : String) :
    ∀ (hrefs : List String) (acc : List String),
      hrefs.foldl
        (fun acc href =>
          if is_downloadable_link cfg href then acc ++ [join url href] else acc)
        acc
        = acc ++ (hrefs.filter (is_downloadable_link cfg)).map (join url) := by
  intro hrefs
  induction hrefs with
  | nil => intro acc; simp
  | cons h t ih =>
    intro acc
    by_cases hd : is_downloadable_link cfg h
    · simp [List.foldl_cons, List.filter_cons, hd, ih]
    · simp [List.foldl_cons, List.filter_cons, hd, ih]

/-- Boolean normal form of `_is_downloadable_link`. -/
theorem is_downloadable_link_eq (cfg : DownloaderConfig) (href : String) :
    is_downloadable_link cfg href =
      (!(href = "" : Bool) && !strStartsWith href "#" && !strStartsWith href "javascript:" &&
        cfg.allowed_extensions.any
          (fun ext => strEndsWith (pyLower (urlparse_path href)) (pyLower ext))) := by
  unfold is_downloadable_link
  cases h1 : (href = "" : Bool) <;> cases h2 : strStartsWith href "#" <;>
    cases h3 : strStartsWith href "javascript:" <;> simp [h1, h2, h3]

/-! ## Claim theorems -/

/-- C9: `sanitize_filename` is the identity function — the sanitization
step is a no-op for every input string. -/
theorem c9_sanitize_identity : ∀ s : String, sanitize_filename s = s :=
  fun _ => rfl

/-- C2: the collected candidate links are exactly the hrefs that are
nonempty, do not start with `#` or `javascript:`, and whose URL path
(query string removed by `urlparse`) ends case-insensitively with some
allowed extension; each is resolved against the page URL by `urljoin`,
document order is preserved, and duplicates are kept. -/
theorem c2_link_extraction :
    ∀ (cfg : DownloaderConfig) (join : String → String → String)
      (url : String) (hrefs : List String),
      collect_file_links cfg join url hrefs
        = (hrefs.filter (is_downloadable_link cfg)).map (join url)
      ∧ ∀ href : String,
          is_downloadable_link cfg href = true ↔
            href ≠ "" ∧ ¬ strStartsWith href "#" ∧ ¬ strStartsWith href "javascript:"
            ∧ ∃ ext ∈ cfg.allowed_extensions,
                strEndsWith (pyLower (urlparse_path href)) (pyLower ext) := by
  intro cfg join url hrefs
  constructor
  · rw [collect_file_links, collect_file_links_go]
    simp
  · intro href
    rw [is_downloadable_link_eq]
    simp only [Bool.and_eq_true, Bool.not_eq_true', Bool.not_eq_true,
      decide_eq_false_iff_not, List.any_eq_true, and_assoc]

/-- C7: `min_file_size` and `max_file_size` never influence
`download_from_url`: two runs that differ only in those two fields produce
the same outcome, the same files on disk, and the same requests (the
size-check helper `is_valid_file_size` is never invoked in the download
control flow). -/
theorem c7_size_bounds_inert :
    ∀ (cfg : DownloaderConfig) (m1 M1 m2 M2 : Option Int) (env : Env)
      (w : World) (outDir url : String) (fs0 : List String) (ts te : Nat),
      download_from_url { cfg with min_file_size := m1, max_file_size := M1 }
          env w outDir url fs0 ts te
        = download_from_url { cfg with min_file_size := m2, max_file_size := M2 }
            env w outDir url fs0 ts te :=
  fun _ _ _ _ _ _ _ _ _ _ _ _ => rfl

/-- When every attempt up to `max_retries` fails, the retry loop runs to
the last attempt and raises with the last attempt's error. -/
theorem make_request_go_all_fail (url : String) (att : AttemptOracle)
    (mr : Nat) (e : Nat → String)
    (he : ∀ i, i < mr → attempt_error url (att i) = some (e i)) :
    ∀ (remaining i : Nat), i + remaining = mr → 0 < remaining →
      make_request_go url att mr i remaining
        = .network_error (networkErrMsg url mr (e (mr - 1))) mr := by
  intro remaining
  induction remaining with
  | zero => intro i _ h0; omega
  | succ n ih =>
    intro i hi _
    have hfail := he i (by omega)
    have hone : mr - 1 + 1 = mr := by omega
    cases ha : att i with
    | error e' =>
      rw [ha] at hfail
      simp only [attempt_error, Option.some.injEq] at hfail
      by_cases hlast : i = mr - 1
      · simp only [make_request_go, ha, if_pos hlast]
        rw [hfail, hlast, hone]
      · simp only [make_request_go, ha, if_neg hlast]
        exact ih (i + 1) (by omega) (by omega)
    | ok r =>
      rw [ha] at hfail
      simp only [attempt_error] at hfail
      by_cases hlast : i = mr - 1
      · simp only [make_request_go, ha, hfail, if_pos hlast]
        rw [hlast, hone]
      · simp only [make_request_go, ha, hfail, if_neg hlast]
        exact ih (i + 1) (by omega) (by omega)

/-- When the attempts before `j` fail and attempt `j` passes
`raise_for_status`, the loop returns that response at attempt `j + 1`. -/
theorem make_request_go_first_success (url : String) (att : AttemptOracle)
    (mr j : Nat) (r : HttpResponse) (e : Nat → String)
    (he : ∀ i, i < j → attempt_error url (att i) = some (e i))
    (hj : att j = .ok r) (hok : raise_for_status url r = none) :
    ∀ (remaining i : Nat), i + remaining = mr → i ≤ j → j < mr →
      make_request_go url att mr i remaining = .ok r (j + 1) := by
  intro remaining
  induction remaining with
  | zero => intro i h0 hij hjm; omega
  | succ n ih =>
    intro i hi hij hjm
    by_cases hij' : i = j
    · subst hij'
      simp only [make_request_go, hj, hok]
    · have hfail := he i (by omega)
      have hlast : ¬ i = mr - 1 := by omega
      cases ha : att i with
      | error e' =>
        rw [ha] at hfail
        simp only [attempt_error, Option.some.injEq] at hfail
        simp only [make_request_go, ha, if_neg hlast]
        exact ih (i + 1) (by omega) (by omega) hjm
      | ok r' =>
        rw [ha] at hfail
        simp only [attempt_error] at hfail
        simp only [make_request_go, ha, hfail, if_neg hlast]
        exact ih (i + 1) (by omega) (by omega) hjm

/-- Every `network_error` the retry loop produces has the `NetworkError`
message shape naming the URL and the configured attempt count. -/
theorem make_request_go_error_shape (url : String) (att : AttemptOracle)
    (mr : Nat) :
    ∀ (remaining i : Nat) (m : String) (k : Nat),
      make_request_go url att mr i remaining = .network_error m k →
      ∃ e, m = networkErrMsg url mr e := by
  intro remaining
  induction remaining with
  | zero =>
    intro i m k h
    simp only [make_request_go] at h
    exact ReqResult.noConfusion h
  | succ n ih =>
    intro i m k h
    cases ha : att i with
    | error e' =>
      simp only [make_request_go, ha] at h
      by_cases hlast : i = mr - 1
      · rw [if_pos hlast] at h
        exact ⟨e', by injection h with h1 h2; exact h1.symm⟩
      · rw [if_neg hlast] at h
        exact ih (i + 1) m k h
    | ok r =>
      simp only [make_request_go, ha] at h
      cases hr : raise_for_status url r with
      | none =>
        simp only [hr] at h
        exact ReqResult.noConfusion h
      | some e' =>
        simp only [hr] at h
        by_cases hlast : i = mr - 1
        · rw [if_pos hlast] at h
          exact ⟨e', by injection h with h1 h2; exact h1.symm⟩
        · rw [if_neg hlast] at h
          exact ih (i + 1) m k h

/-- C1 counterexample: the claim counts every non-2xx status as a failing
attempt, but `raise_for_status` only rejects statuses in `[400, 600)`.
With every attempt answering 304 Not Modified (a non-2xx status) and
`max_retries = 3`, `_make_request` returns the 304 response at the first
attempt instead of retrying three times and raising a `NetworkError`. -/
theorem c1_counterexample :
    make_request {} "http://example.com/doc" (fun _ => .ok resp304)
      = .ok resp304 1
    ∧ resp304.status = 304
    ∧ (resp304.status < 200 ∨ 300 ≤ resp304.status) := by
  refine ⟨rfl, rfl, by decide⟩

/-- C1 (amended): for every request whose every attempt fails with a
`requests` exception or with a status in `[400, 600)` (the statuses
`raise_for_status` rejects), `_make_request` makes exactly `max_retries`
attempts and raises a `NetworkError` whose message carries the URL, the
attempt count and the last error; an attempt whose response passes
`raise_for_status` (any status outside `[400, 600)`, in particular 2xx)
is returned immediately at attempt `j + 1` without consuming the
remaining retries. -/
theorem c1_retry_exhaustion (cfg : DownloaderConfig) (url : String)
    (att : AttemptOracle) (e : Nat → String) (hmr : 1 ≤ cfg.max_retries) :
    ((∀ i, i < cfg.max_retries → attempt_error url (att i) = some (e i)) →
      make_request cfg url att
        = .network_error
            (networkErrMsg url cfg.max_retries (e (cfg.max_retries - 1)))
            cfg.max_retries)
    ∧ (∀ (j : Nat) (r : HttpResponse), j < cfg.max_retries →
        (∀ i, i < j → attempt_error url (att i) = some (e i)) →
        att j = .ok r → raise_for_status url r = none →
        make_request cfg url att = .ok r (j + 1)) := by
  constructor
  · intro he
    exact make_request_go_all_fail url att cfg.max_retries e he
      cfg.max_retries 0 (by omega) (by omega)
  · intro j r hj he hja hok
    exact make_request_go_first_success url att cfg.max_retries j r e he hja hok
      cfg.max_retries 0 (by omega) (by omega) hj

/-- Witness for C1: with three connection-refused attempts the default
configuration raises the `NetworkError` naming the URL and 3 attempts. -/
theorem c1_retry_exhaustion_witness :
    make_request {} "http://example.com/doc" (fun _ => .error "Connection refused")
      = .network_error
          (networkErrMsg "http://example.com/doc" 3 "Connection refused") 3 :=
  (c1_retry_exhaustion {} "http://example.com/doc"
      (fun _ => .error "Connection refused") (fun _ => "Connection refused")
      (by decide)).1 (by intro i _; rfl)

/-- Each iteration of the per-link loop increments exactly one of the
three counters, by exactly one. -/
theorem processLink_exactly_one (cfg : DownloaderConfig) (w : World)
    (outDir : String) (st : LoopState) (fu : String) :
    ((processLink cfg w outDir st fu).report.success_count = st.report.success_count + 1
      ∧ (processLink cfg w outDir st fu).report.failed_count = st.report.failed_count
      ∧ (processLink cfg w outDir st fu).report.skipped_count = st.report.skipped_count)
    ∨ ((processLink cfg w outDir st fu).report.success_count = st.report.success_count
      ∧ (processLink cfg w outDir st fu).report.failed_count = st.report.failed_count + 1
      ∧ (processLink cfg w outDir st fu).report.skipped_count = st.report.skipped_count)
    ∨ ((processLink cfg w outDir st fu).report.success_count = st.report.success_count
      ∧ (processLink cfg w outDir st fu).report.failed_count = st.report.failed_count
      ∧ (processLink cfg w outDir st fu).report.skipped_count = st.report.skipped_count + 1) := by
  cases h : linkOutcome cfg w outDir st.fs fu with
  | skip fn => right; right; simp [processLink, h]
  | success fn bytes => left; simp [processLink, h]
  | failure m => right; left; simp [processLink, h]

/-- Summed over the loop, the three counters grow by exactly the number
of links processed. -/
theorem processLinks_sum (cfg : DownloaderConfig) (w : World) (outDir : String) :
    ∀ (links : List String) (st : LoopState),
      (processLinks cfg w outDir st links).report.success_count
        + (processLinks cfg w outDir st links).report.failed_count
        + (processLinks cfg w outDir st links).report.skipped_count
      = st.report.success_count + st.report.failed_count
        + st.report.skipped_count + links.length := by
  intro links
  induction links with
  | nil => intro st; simp [processLinks]
  | cons l t ih =>
    intro st
    have hstep := processLink_exactly_one cfg w outDir st l
    have htail := ih (processLink cfg w outDir st l)
    simp only [processLinks, List.foldl_cons] at htail ⊢
    rcases hstep with ⟨h1, h2, h3⟩ | ⟨h1, h2, h3⟩ | ⟨h1, h2, h3⟩ <;>
      simp only [List.length_cons] <;> omega

/-- C3: whenever the per-link loop is reached (directory creation and the
page fetch succeed), the returned report satisfies
`success_count + failed_count + skipped_count = number of candidate
links`; each iteration increments exactly one of the three counters. -/
theorem c3_counter_invariant (cfg : DownloaderConfig) (env : Env) (w : World)
    (outDir url : String) (fs0 : List String) (ts te : Nat)
    (resp : HttpResponse) (k : Nat) (rep : DownloadReport)
    (hmk : w.mkdir_error = none)
    (hfetch : make_request cfg url (w.attempts url) = .ok resp k)
    (hout : (download_from_url cfg env w outDir url fs0 ts te).outcome
      = .returned rep) :
    rep.success_count + rep.failed_count + rep.skipped_count
      = (collect_file_links cfg env.urljoin url (env.soup_hrefs resp)).length
    ∧ ∀ (st : LoopState) (fu : String),
        ((processLink cfg w outDir st fu).report.success_count = st.report.success_count + 1
          ∧ (processLink cfg w outDir st fu).report.failed_count = st.report.failed_count
          ∧ (processLink cfg w outDir st fu).report.skipped_count = st.report.skipped_count)
        ∨ ((processLink cfg w outDir st fu).report.success_count = st.report.success_count
          ∧ (processLink cfg w outDir st fu).report.failed_count = st.report.failed_count + 1
          ∧ (processLink cfg w outDir st fu).report.skipped_count = st.report.skipped_count)
        ∨ ((processLink cfg w outDir st fu).report.success_count = st.report.success_count
          ∧ (processLink cfg w outDir st fu).report.failed_count = st.report.failed_count
          ∧ (processLink cfg w outDir st fu).report.skipped_count = st.report.skipped_count + 1) := by
  constructor
  · simp only [download_from_url, hmk, hfetch] at hout
    have hsum := processLinks_sum cfg w outDir
      (collect_file_links cfg env.urljoin url (env.soup_hrefs resp))
      { fs := fs0, report := { start_time := ts }, requests := [url] }
    injection hout with hrep
    rw [← hrep]
    simpa using hsum
  · intro st fu
    exact processLink_exactly_one cfg w outDir st fu

/-- Witness for C3: in the C6 scenario the returned report satisfies
`1 + 0 + 2 = 3`, the number of candidate links. -/
theorem c3_counter_invariant_witness :
    (1 + 0 + 2 : Nat)
      = (collect_file_links {} envC6.urljoin "http://e.com/"
          (envC6.soup_hrefs respFile)).length :=
  (c3_counter_invariant {} envC6 worldOk "out" "http://e.com/" ["b.docx"] 0 1
    respFile 1
    { success_count := 1, failed_count := 0, skipped_count := 2,
      successful_files := ["a.pdf"], failed_files := [],
      skipped_files := ["b.docx", "b.docx"], total_size := 3,
      start_time := 0, end_time := some 1 }
    rfl rfl (by decide)).1

/-- After a dict assignment, looking up the assigned key yields the
assigned value. -/
theorem dictGet_dictSet (d : List (String × String)) (k v : String) :
    dictGet (dictSet d k v) k = some v := by
  induction d with
  | nil => simp [dictSet, dictGet]
  | cons a t ih =>
    by_cases ha : a.1 = k
    · have hany : (a :: t).any (fun p => p.1 = k) = true := by
        simp [List.any_cons, ha]
      simp [dictSet, hany, dictGet, List.find?, ha]
    · cases ht : t.any (fun p => p.1 = k) with
      | true =>
        have hany : (a :: t).any (fun p => p.1 = k) = true := by
          simp [List.any_cons, ht]
        have ih' : dictGet (t.map (fun p => if p.1 = k then (k, v) else p)) k = some v := by
          simpa [dictSet, ht] using ih
        simpa [dictSet, hany, dictGet, List.find?, ha] using ih'
      | false =>
        have ha' : (decide (a.1 = k)) = false := by simp [ha]
        have hany : (a :: t).any (fun p => p.1 = k) = false := by
          rw [List.any_cons, ha', ht]
          rfl
        have ih' : dictGet (t ++ [(k, v)]) k = some v := by
          simpa [dictSet, ht] using ih
        simpa [dictSet, hany, dictGet, List.find?, ha] using ih'

/-- The `NetworkError` message is never empty. -/
theorem networkErrMsg_ne_empty (url : String) (mr : Nat) (e : String) :
    networkErrMsg url mr e ≠ "" := by
  intro h
  have hl := congrArg String.length h
  simp only [networkErrMsg, String.length_append] at hl
  have h16 : String.length "Failed to fetch " = 16 := by decide
  have h0 : String.length "" = 0 := rfl
  omega

/-- The `ValueError` message of `int()` is never empty. -/
theorem intErrMsg_ne_empty (s : String) : intErrMsg s ≠ "" := by
  intro h
  have hl := congrArg String.length h
  simp only [intErrMsg, String.length_append] at hl
  have hc : String.length "invalid literal for int() with base 10: '" = 41 := by decide
  have h0 : String.length "" = 0 := rfl
  omega

/-- The `OSError` text is never empty. -/
theorem saveErrMsg_ne_empty (e : SaveError) (path : String) :
    e.msg path ≠ "" := by
  intro h
  have hl := congrArg String.length h
  simp only [SaveError.msg, String.length_append] at hl
  have hc : String.length "[Errno " = 7 := by decide
  have h0 : String.length "" = 0 := rfl
  omega

/-- Every per-file failure recorded by the loop body carries a nonempty
message. -/
theorem linkOutcome_failure_ne_empty (cfg : DownloaderConfig) (w : World)
    (outDir : String) (fs : List String) (fu msg : String)
    (h : linkOutcome cfg w outDir fs fu = .failure msg) : msg ≠ "" := by
  unfold linkOutcome at h
  by_cases hex :
      (sanitize_filename (pathName (urlparse_path fu)) = ""
        || sanitize_filename (pathName (urlparse_path fu)) = ".."
        || fs.contains (sanitize_filename (pathName (urlparse_path fu)))) = true
  · rw [if_pos hex] at h
    exact LinkOutcome.noConfusion h
  · rw [if_neg hex] at h
    cases hm : make_request cfg fu (w.attempts fu) with
    | network_error m k =>
      rw [hm] at h
      injection h with hmsg
      subst hmsg
      unfold make_request at hm
      obtain ⟨e, he⟩ := make_request_go_error_shape fu (w.attempts fu)
        cfg.max_retries cfg.max_retries 0 m k hm
      rw [he]
      exact networkErrMsg_ne_empty fu cfg.max_retries e
    | none_result =>
      rw [hm] at h
      injection h with hmsg
      subst hmsg
      decide
    | ok r k =>
      simp only [hm] at h
      unfold respOutcome at h
      cases hcl : r.content_length with
      | some s =>
        simp only [hcl] at h
        cases hp : pyIntParse s with
        | none =>
          simp only [hp] at h
          injection h with hmsg
          subst hmsg
          exact intErrMsg_ne_empty s
        | some v =>
          simp only [hp] at h
          unfold saveOutcome at h
          cases hs : w.save_error (sanitize_filename (pathName (urlparse_path fu))) with
          | some e =>
            simp only [hs] at h
            injection h with hmsg
            subst hmsg
            exact saveErrMsg_ne_empty e _
          | none =>
            simp only [hs] at h
            exact LinkOutcome.noConfusion h
      | none =>
        simp only [hcl] at h
        unfold saveOutcome at h
        cases hs : w.save_error (sanitize_filename (pathName (urlparse_path fu))) with
        | some e =>
          simp only [hs] at h
          injection h with hmsg
          subst hmsg
          exact saveErrMsg_ne_empty e _
        | none =>
          simp only [hs] at h
          exact LinkOutcome.noConfusion h

/-- C4: a per-link failure (failed fetch, bad content-length header, or
failed save) is caught inside the loop body: `failed_files` maps the
source URL to a nonempty message, `failed_count` grows by exactly one, no
other report field and no directory contents change, and the loop
continues with the remaining links. -/
theorem c4_per_file_failure (cfg : DownloaderConfig) (w : World)
    (outDir : String) (st : LoopState) (fu msg : String) (rest : List String)
    (h : linkOutcome cfg w outDir st.fs fu = .failure msg) :
    processLink cfg w outDir st fu
      = { st with
          requests := st.requests ++ [fu],
          report := { st.report with
            failed_files := dictSet st.report.failed_files fu msg,
            failed_count := st.report.failed_count + 1 } }
    ∧ dictGet (dictSet st.report.failed_files fu msg) fu = some msg
    ∧ msg ≠ ""
    ∧ processLinks cfg w outDir st (fu :: rest)
        = processLinks cfg w outDir (processLink cfg w outDir st fu) rest := by
  refine ⟨?_, dictGet_dictSet _ _ _,
    linkOutcome_failure_ne_empty cfg w outDir st.fs fu msg h, rfl⟩
  simp only [processLink, h]

/-- Witness for C4: a link whose three fetch attempts all fail is
recorded in `failed_files` with the `NetworkError` message, which is
nonempty, and nothing else changes. -/
theorem c4_per_file_failure_witness :
    processLink {} worldConnFail "out" st0 "http://e.com/a.pdf"
      = { st0 with
          requests := st0.requests ++ ["http://e.com/a.pdf"],
          report := { st0.report with
            failed_files := dictSet st0.report.failed_files "http://e.com/a.pdf"
              (networkErrMsg "http://e.com/a.pdf" 3 "Connection refused"),
            failed_count := st0.report.failed_count + 1 } }
    ∧ networkErrMsg "http://e.com/a.pdf" 3 "Connection refused" ≠ "" :=
  (fun hc => ⟨hc.1, hc.2.2.1⟩)
    (c4_per_file_failure {} worldConnFail "out" st0 "http://e.com/a.pdf"
      (networkErrMsg "http://e.com/a.pdf" 3 "Connection refused") []
      (by decide))

/-- C5: a directory-creation or page-fetch failure makes
`download_from_url` raise a `DownloadError` wrapping the cause and return
no report; on every exit path the outcome's report carries
`end_time = t_end`, stamped only by the final cleanup step (the loop
itself never touches `end_time`). -/
theorem c5_fatal_errors_and_end_time (cfg : DownloaderConfig) (env : Env)
    (w : World) (outDir url : String) (fs0 : List String) (ts te : Nat) :
    (∀ e, w.mkdir_error = some e →
      download_from_url cfg env w outDir url fs0 ts te
        = { outcome := .raised (downloadErrMsg url (e.msg outDir))
              { start_time := ts, end_time := some te },
            fs := fs0, requests := [] })
    ∧ (∀ (m : String) (n : Nat), w.mkdir_error = none →
        make_request cfg url (w.attempts url) = .network_error m n →
        download_from_url cfg env w outDir url fs0 ts te
          = { outcome := .raised (downloadErrMsg url m)
                { start_time := ts, end_time := some te },
              fs := fs0, requests := [url] })
    ∧ ((download_from_url cfg env w outDir url fs0 ts te).outcome.report.end_time
        = some te)
    ∧ (∀ (st : LoopState) (fu : String),
        (processLink cfg w outDir st fu).report.end_time = st.report.end_time) := by
  refine ⟨?_, ?_, ?_, ?_⟩
  · intro e he
    simp only [download_from_url, he]
  · intro m n he hm
    simp only [download_from_url, he, hm]
  · cases he : w.mkdir_error with
    | some e => simp only [download_from_url, he, DownloadOutcome.report]
    | none =>
      cases hm : make_request cfg url (w.attempts url) with
      | network_error m n =>
        simp only [download_from_url, he, hm, DownloadOutcome.report]
      | none_result =>
        simp only [download_from_url, he, hm, DownloadOutcome.report]
      | ok r k =>
        simp only [download_from_url, he, hm, DownloadOutcome.report]
  · intro st fu
    cases h : linkOutcome cfg w outDir st.fs fu <;> simp [processLink, h]

/-- Witness for C5: with a failing `mkdir` the call raises the wrapped
`DownloadError` and the discarded report is stamped with `end_time`. -/
theorem c5_fatal_errors_witness :
    download_from_url {} envC6 worldMkdirFail "out" "http://e.com/" [] 0 1
      = { outcome := .raised
            (downloadErrMsg "http://e.com/"
              (SaveError.msg { errno := 13, strerror := "Permission denied" } "out"))
            { start_time := 0, end_time := some 1 },
          fs := [], requests := [] } :=
  (c5_fatal_errors_and_end_time {} envC6 worldMkdirFail "out" "http://e.com/"
    [] 0 1).1 { errno := 13, strerror := "Permission denied" } rfl

/-- A link whose derived filename is already in the output directory is
classified as a skip. -/
theorem linkOutcome_skip_of_mem (cfg : DownloaderConfig) (w : World)
    (outDir : String) (fs : List String) (fu : String)
    (h : sanitize_filename (pathName (urlparse_path fu)) ∈ fs) :
    linkOutcome cfg w outDir fs fu
      = .skip (sanitize_filename (pathName (urlparse_path fu))) := by
  unfold linkOutcome
  rw [if_pos (by simp; exact Or.inr h)]

/-- A link whose derived filename is already on disk only appends the
filename to `skipped_files` and bumps `skipped_count`: no request is
made, no file written, nothing else changes. -/
theorem processLink_skip_of_mem (cfg : DownloaderConfig) (w : World)
    (outDir : String) (st : LoopState) (fu : String)
    (h : sanitize_filename (pathName (urlparse_path fu)) ∈ st.fs) :
    processLink cfg w outDir st fu
      = { st with report := { st.report with
            skipped_files := st.report.skipped_files
              ++ [sanitize_filename (pathName (urlparse_path fu))],
            skipped_count := st.report.skipped_count + 1 } } := by
  simp only [processLink, linkOutcome_skip_of_mem cfg w outDir st.fs fu h]

/-- C6: for the page `a.pdf`, `b.docx`, `b.docx` with `b.docx` already on
disk and `a.pdf` downloading successfully, the report has
`success_count = 1` and `skipped_count = 2`; the only URLs fetched are
the page and `a.pdf` — `b.docx` is never fetched; in general, a link
whose filename exists on disk is recorded as skipped without any request
or other state change. -/
theorem c6_existing_files_skipped :
    runC6.outcome = .returned
      { success_count := 1, failed_count := 0, skipped_count := 2,
        successful_files := ["a.pdf"], failed_files := [],
        skipped_files := ["b.docx", "b.docx"], total_size := 3,
        start_time := 0, end_time := some 1 }
    ∧ runC6.requests = ["http://e.com/", "http://e.com/a.pdf"]
    ∧ "http://e.com/b.docx" ∉ runC6.requests
    ∧ ∀ (cfg : DownloaderConfig) (w : World) (outDir : String)
        (st : LoopState) (fu : String),
        sanitize_filename (pathName (urlparse_path fu)) ∈ st.fs →
        processLink cfg w outDir st fu
          = { st with report := { st.report with
                skipped_files := st.report.skipped_files
                  ++ [sanitize_filename (pathName (urlparse_path fu))],
                skipped_count := st.report.skipped_count + 1 } } := by
  refine ⟨by decide, by decide, by decide, ?_⟩
  intro cfg w outDir st fu h
  exact processLink_skip_of_mem cfg w outDir st fu h

/-- Witness for C6: processing `b.docx` against a directory that already
holds `b.docx` records a skip and leaves requests and files unchanged. -/
theorem c6_existing_files_skipped_witness :
    processLink {} worldOk "out" stB "http://e.com/b.docx"
      = { stB with report := { stB.report with
            skipped_files := stB.report.skipped_files ++ ["b.docx"],
            skipped_count := stB.report.skipped_count + 1 } } :=
  c6_existing_files_skipped.2.2.2 {} worldOk "out" stB "http://e.com/b.docx"
    (by decide)

/-- A link whose filename is absent, whose fetch succeeds, whose
content-length parses, and whose save succeeds is classified as a
success carrying the bytes written. -/
theorem linkOutcome_success (cfg : DownloaderConfig) (w : World)
    (outDir : String) (fs : List String) (fu fn : String)
    (resp : HttpResponse) (k : Nat)
    (hfn : sanitize_filename (pathName (urlparse_path fu)) = fn)
    (hne : fn ≠ "") (hnd : fn ≠ "..") (hnm : fn ∉ fs)
    (hfetch : make_request cfg fu (w.attempts fu) = .ok resp k)
    (hcl : ∀ s, resp.content_length = some s → pyIntParse s ≠ none)
    (hsave : w.save_error fn = none) :
    linkOutcome cfg w outDir fs fu = .success fn (save_file_bytes resp.chunks) := by
  unfold linkOutcome
  rw [hfn]
  rw [if_neg (by simp [hne, hnd, hnm])]
  simp only [hfetch]
  unfold respOutcome
  cases hc : resp.content_length with
  | none =>
    simp only [hc]
    unfold saveOutcome
    simp only [hsave]
  | some s =>
    cases hp : pyIntParse s with
    | none => exact absurd hp (hcl s hc)
    | some v =>
      simp only [hc, hp]
      unfold saveOutcome
      simp only [hsave]

/-- C10: when a page lists the same filename twice, the file is absent
before the run, and the first occurrence's download succeeds, the second
occurrence is recorded as skipped (not as a second success), because the
file written by the first occurrence now exists on disk. -/
theorem c10_duplicate_second_skipped (cfg : DownloaderConfig) (w : World)
    (outDir : String) (st : LoopState) (fu fn : String)
    (resp : HttpResponse) (k : Nat)
    (hfn : sanitize_filename (pathName (urlparse_path fu)) = fn)
    (hne : fn ≠ "") (hnd : fn ≠ "..") (hnm : fn ∉ st.fs)
    (hfetch : make_request cfg fu (w.attempts fu) = .ok resp k)
    (hcl : ∀ s, resp.content_length = some s → pyIntParse s ≠ none)
    (hsave : w.save_error fn = none) :
    processLinks cfg w outDir st [fu, fu]
      = { fs := st.fs ++ [fn],
          requests := st.requests ++ [fu],
          report := { st.report with
            successful_files := st.report.successful_files ++ [fn],
            success_count := st.report.success_count + 1,
            total_size := st.report.total_size + save_file_bytes resp.chunks,
            skipped_files := st.report.skipped_files ++ [fn],
            skipped_count := st.report.skipped_count + 1 } } := by
  have h1 : processLink cfg w outDir st fu
      = { st with
          fs := st.fs ++ [fn],
          requests := st.requests ++ [fu],
          report := { st.report with
            successful_files := st.report.successful_files ++ [fn],
            success_count := st.report.success_count + 1,
            total_size := st.report.total_size + save_file_bytes resp.chunks } } := by
    simp only [processLink,
      linkOutcome_success cfg w outDir st.fs fu fn resp k hfn hne hnd hnm hfetch hcl hsave]
  show processLink cfg w outDir (processLink cfg w outDir st fu) fu = _
  rw [h1]
  rw [processLink_skip_of_mem cfg w outDir _ fu (by rw [hfn]; simp)]
  rw [hfn]

/-- Witness for C10: the page `a.pdf`, `a.pdf` over an empty directory
with a succeeding download yields one success and one skip. -/
theorem c10_duplicate_second_skipped_witness :
    processLinks {} worldOk "out" st0 ["http://e.com/a.pdf", "http://e.com/a.pdf"]
      = { fs := st0.fs ++ ["a.pdf"],
          requests := st0.requests ++ ["http://e.com/a.pdf"],
          report := { st0.report with
            successful_files := st0.report.successful_files ++ ["a.pdf"],
            success_count := st0.report.success_count + 1,
            total_size := st0.report.total_size + save_file_bytes respFile.chunks,
            skipped_files := st0.report.skipped_files ++ ["a.pdf"],
            skipped_count := st0.report.skipped_count + 1 } } :=
  c10_duplicate_second_skipped {} worldOk "out" st0 "http://e.com/a.pdf" "a.pdf"
    respFile 1 (by decide) (by decide) (by decide) (by decide) (by decide)
    (by intro s hs; injection hs with h; subst h; decide) rfl

/-- C8 counterexample: the claim says an invalid content-length header
defaults to 0 and the download proceeds regardless; in the code
`int(...)` raises `ValueError` on an invalid header, the per-file handler
records a failure, and the file is not downloaded. -/
theorem c8_counterexample :
    runC8.report.failed_count = 1
    ∧ runC8.report.success_count = 0
    ∧ dictGet runC8.report.failed_files "http://e.com/a.pdf"
        = some "invalid literal for int() with base 10: 'abc'"
    ∧ runC8.fs = []
    ∧ runC8.report.successful_files = [] := by
  decide

/-- C8 (amended): an absent content-length header is read as the default
0 and the download proceeds to the save step exactly as with a header
`"0"`; a present header that is not a valid integer literal raises
`ValueError` and the file is recorded as a per-file failure; when the
header parses, the parsed value is never used — any two parsable header
values lead to the same outcome. -/
theorem c8_content_length_handling (saveErr : String → Option SaveError)
    (outDir fn : String) (st : Nat) (rea : String) (chunks : List (List Nat)) :
    (respOutcome saveErr outDir fn
        { status := st, reason := rea, content_length := none, chunks := chunks }
      = respOutcome saveErr outDir fn
          { status := st, reason := rea, content_length := some "0", chunks := chunks })
    ∧ (respOutcome saveErr outDir fn
          { status := st, reason := rea, content_length := none, chunks := chunks }
        = saveOutcome saveErr outDir fn
            { status := st, reason := rea, content_length := none, chunks := chunks })
    ∧ (∀ s, pyIntParse s = none →
        respOutcome saveErr outDir fn
            { status := st, reason := rea, content_length := some s, chunks := chunks }
          = .failure (intErrMsg s))
    ∧ (∀ s s' v v', pyIntParse s = some v → pyIntParse s' = some v' →
        respOutcome saveErr outDir fn
            { status := st, reason := rea, content_length := some s, chunks := chunks }
          = respOutcome saveErr outDir fn
              { status := st, reason := rea, content_length := some s', chunks := chunks }) := by
  refine ⟨?_, ?_, ?_, ?_⟩
  · unfold respOutcome saveOutcome
    simp only [show pyIntParse "0" = some 0 from rfl]
  · unfold respOutcome
    rfl
  · intro s hp
    unfold respOutcome
    simp only [hp]
  · intro s s' v v' hp hp'
    unfold respOutcome
    simp only [hp, hp']
    cases hs : saveErr fn <;> simp [saveOutcome, hs]

/-- Witness for C8: the header value `"abc"` fails to parse and yields
the `ValueError` failure outcome. -/
theorem c8_content_length_handling_witness :
    respOutcome (fun _ => none) "out" "a.pdf"
        { status := 200, reason := "OK", content_length := some "abc",
          chunks := [[1, 2, 3]] }
      = .failure (intErrMsg "abc") :=
  (c8_content_length_handling (fun _ => none) "out" "a.pdf" 200 "OK"
    [[1, 2, 3]]).2.2.1 "abc" (by decide)
